import Mathlib

/-!
Verification of src/model_training/train_model.py

A shallow embedding of the single training script of the repository.

Modelling conventions:
* Python scalar values (the `int | float | str` cells of dataframes and the
  values of the hyperparameter dictionary) are the inductive type `PVal`;
  floats are embedded as `Rat`.
* A Python `dict` is an association list with the insertion order kept;
  `dict.pop` removes the key and returns its value, raising (here: `none`)
  when the key is absent.
* A pandas `DataFrame` is its list of named columns.  `DataFrame.drop`
  (default `inplace=False`) returns a fresh frame and never mutates its
  receiver, `df["c"]` selects a column; both raise a `KeyError` (here:
  `none`) when the label is missing.
* An sklearn `OneHotEncoder` is its fitted category list; `fit` computes the
  sorted distinct values of the fitted column (`np.unique`), `transform`
  produces one indicator column per category.
* Fallible steps return `Option`; a `none` is an uncaught Python exception
  propagating out of the function.
* The effectful parts of `train_model` (MLflow calls, the TensorFlow seed,
  file writes) are recorded as explicit traces: a list of `Event`s for the
  tracker/seed calls and a list of `FileWrite`s for the paths written to
  disk.  The results of the external services (the rows returned by
  `mlflow.search_runs`, ordered by `start_time DESC` as requested; the run
  id MLflow would assign to a freshly created run; the per-epoch history
  returned by `model.fit`) are inputs of the embedding.
* `prepare_data` additionally returns, as its first component, the object
  the variable of the caller named train_data refers to after the call, so that
  claims about in-place mutation of the argument are statable.
-/

/-- A Python scalar value: an `int`, a `float` (embedded as `Rat`) or a
string. -/
inductive PVal where
  | int (n : Int)
  | float (q : Rat)
  | str (s : String)
deriving DecidableEq, Repr

/-- The hyperparameter dictionary: an association list in insertion order
(Python dicts preserve insertion order and have unique keys). -/
abbrev Params := List (String × PVal)

/-- Python `dict.pop(k)`: the value at `k` together with the dictionary with `k`
removed; `none` models the `KeyError` raised when `k` is absent. -/
def Params.pop (ps : Params) (k : String) : Option (PVal × Params) :=
  match List.lookup k ps with
  | none => none
  | some v => some (v, ps.filter (fun p => p.1 != k))

/-- A pandas dataframe: its named columns in order. -/
structure DataFrame where
  cols : List (String × List PVal)
deriving DecidableEq, Repr

/-- Pandas `df.drop(c, axis=1)` with the default `inplace=False`: a **new** frame
without the column(s) labelled `c`; `none` models the `KeyError` raised
when no column is labelled `c`. -/
def DataFrame.drop (df : DataFrame) (c : String) : Option DataFrame :=
  match List.lookup c df.cols with
  | none => none
  | some _ => some ⟨df.cols.filter (fun p => p.1 != c)⟩

/-- Column selection `df[c]`: the column labelled `c` (`none` models the `KeyError`). -/
def DataFrame.getCol (df : DataFrame) (c : String) : Option (List PVal) :=
  List.lookup c df.cols

/-- Number of columns of the frame, `df.shape[1]`. -/
def DataFrame.shape1 (df : DataFrame) : Nat := df.cols.length

/-- A total comparison on scalar values, used for the sorted distinct
categories `np.unique` produces inside `OneHotEncoder.fit`. -/
def PVal.leb : PVal → PVal → Bool
  | .int a, .int b => a ≤ b
  | .int a, .float b => (a : Rat) ≤ b
  | .float a, .int b => a ≤ (b : Rat)
  | .float a, .float b => a ≤ b
  | .str a, .str b => a < b || a == b
  | .str _, _ => false
  | _, .str _ => true

/-- Insert a value into a list sorted by `PVal.leb`. -/
def insertSorted (x : PVal) : List PVal → List PVal
  | [] => [x]
  | y :: ys => if PVal.leb x y then x :: y :: ys else y :: insertSorted x ys

/-- Sort a list of scalar values by `PVal.leb` (insertion sort). -/
def sortVals : List PVal → List PVal
  | [] => []
  | x :: xs => insertSorted x (sortVals xs)

/-- The categories `OneHotEncoder.fit` records: the sorted distinct values
of the fitted column (`np.unique`). -/
def oneHotCategories (ys : List PVal) : List PVal :=
  sortVals ys.dedup

/-- An sklearn `OneHotEncoder(sparse_output=False)` after `fit`: its
category list. -/
structure OneHotEncoder where
  categories : List PVal
deriving DecidableEq, Repr

/-- Fitting, `OneHotEncoder.fit`, on a single column. -/
def oneHotFit (ys : List PVal) : OneHotEncoder := ⟨oneHotCategories ys⟩

/-- A dense numpy array together with its `shape[1]`. -/
structure NDArray where
  rows : List (List Rat)
  ncols : Nat
deriving DecidableEq, Repr

/-- Transforming, `encoder.transform`: one row per sample, one indicator column per
fitted category. -/
def oneHotTransform (enc : OneHotEncoder) (ys : List PVal) : NDArray :=
  ⟨ys.map (fun y => enc.categories.map (fun c => if c == y then (1 : Rat) else 0)),
   enc.categories.length⟩

/-- Function `prepare_data` (train_model.py lines 43-64): split features/target and
one-hot encode the target.  The Python function returns the triple
`(X_train, y_train_encoded, encoder)`; the embedding prepends the object
the train_data argument of the caller refers to after the call (no operation
in the body is in-place, so it is the argument itself). -/
def prepare_data (train_data : DataFrame) :
    Option (DataFrame × DataFrame × NDArray × OneHotEncoder) :=
  match train_data.drop "target", train_data.getCol "target" with
  | some X_train, some y_train =>
    let encoder := oneHotFit y_train
    let y_train_encoded := oneHotTransform encoder y_train
    some (train_data, X_train, y_train_encoded, encoder)
  | _, _ => none

/-- A Keras layer as configured by `create_model`: a `Dense` layer
(units, activation, optional `input_shape`) or a `Dropout` layer. -/
inductive Layer where
  | dense (units : PVal) (activation : String) (input_shape : Option Nat)
  | dropout (rate : PVal)
deriving DecidableEq, Repr

/-- The optimizer the model is compiled with. -/
structure Optimizer where
  name : String
  learning_rate : PVal
deriving DecidableEq, Repr

/-- A compiled Keras `Sequential` model: its layer list and the compile
configuration. -/
structure KerasModel where
  layers : List Layer
  optimizer : Optimizer
  loss : String
  metrics : List String
deriving DecidableEq, Repr

/-- Function `create_model` (train_model.py lines 67-103): the 2-hidden-layer dense
network.  Each `params[...]` subscript raises a `KeyError` (`none`) when
the key is absent. -/
def create_model (input_shape : Nat) (num_classes : Nat) (params : Params) :
    Option KerasModel :=
  match List.lookup "hidden_layer_1_neurons" params,
        List.lookup "dropout_rate" params,
        List.lookup "hidden_layer_2_neurons" params,
        List.lookup "learning_rate" params with
  | some h1, some dr, some h2, some lr =>
    some { layers := [.dense h1 "relu" (some input_shape),
                      .dropout dr,
                      .dense h2 "relu" none,
                      .dropout dr,
                      .dense (.int num_classes) "softmax" none],
           optimizer := ⟨"Adam", lr⟩,
           loss := "categorical_crossentropy",
           metrics := ["accuracy"] }
  | _, _, _, _ => none

/-- The keyword arguments of `mlflow.start_run`: the script either passes
none of them or the triple `parent_run_id` / `run_name` / `nested=True`. -/
structure StartRunArgs where
  parent_run_id : Option String
  run_name : Option String
  nested : Bool
deriving DecidableEq, Repr

/-- One effectful call of `train_model`: the MLflow run-lifecycle and
logging calls and the TensorFlow seed call, in program order. -/
inductive Event where
  | setExperiment (name : String)
  | autolog
  | searchRuns (experiment_id : Option String) (filter_string : String)
      (order_by : List String)
  | startRun (args : StartRunArgs)
  | setTag (key : String) (value : String)
  | endRun
  | logParams (ps : Params)
  | setSeed (v : PVal)
  | logArtifact (path : String)
deriving DecidableEq, Repr

/-- What a file write puts on disk. -/
inductive FileContent where
  | keras (m : KerasModel)
  | joblib (e : OneHotEncoder)
  | json (metrics : List (String × Rat))
deriving DecidableEq, Repr

/-- A write to the local filesystem: target path and payload. -/
structure FileWrite where
  path : String
  content : FileContent
deriving DecidableEq, Repr

/-- Function `save_training_artifacts` (train_model.py lines 106-124): the two file
writes it performs, in order. -/
def save_training_artifacts (model : KerasModel) (encoder : OneHotEncoder) :
    List FileWrite :=
  [⟨"models/model.keras", .keras model⟩,
   ⟨"artifacts/[target]_one_hot_encoder.joblib", .joblib encoder⟩]

/-- The process environment: `os.getenv` looks a name up here. -/
abbrev Env := List (String × String)

/-- The DVC-experiment gate of `train_model` (train_model.py lines
140-160): the keyword arguments for the training `mlflow.start_run` call
and the tracker events emitted while computing them.  `search` is the list
of run ids `mlflow.search_runs` returns for experiment
`MLFLOW_EXPERIMENT_ID` and the dvc_exp tag filter, already ordered
by `start_time DESC` as the call requests, so its head is the most
recently started matching run; `freshRunId` is the id MLflow would assign
to a newly created run. -/
def setupExtraArgs (env : Env) (search : List String) (freshRunId : String) :
    StartRunArgs × List Event :=
  match List.lookup "DVC_EXP_NAME" env with
  | none => (⟨none, none, false⟩, [])
  | some name =>
    let searchEv := Event.searchRuns (List.lookup "MLFLOW_EXPERIMENT_ID" env)
      "tags.dvc_exp = \x27True\x27" ["start_time DESC"]
    match search with
    | [] =>
      (⟨some freshRunId, some name, true⟩,
       [searchEv, .startRun ⟨none, none, false⟩, .setTag "dvc_exp" "True",
        .endRun])
    | r :: _ => (⟨some r, some name, true⟩, [searchEv])

/-- The metrics dictionary written at the end of `train_model`
(train_model.py lines 202-205): one entry per metric of
`history.history`, holding the final element of its per-epoch list;
`none` models the `IndexError` of `[-1]` on an empty list. -/
def finalMetrics : List (String × List Rat) → Option (List (String × Rat))
  | [] => some []
  | (m, vs) :: rest =>
    match vs.getLast?, finalMetrics rest with
    | some v, some ms => some ((m, v) :: ms)
    | _, _ => none

/-- The configuration of the `EarlyStopping` callback. -/
structure EarlyStoppingCfg where
  monitor : String
  patience : Nat
  restore_best_weights : Bool
deriving DecidableEq, Repr

/-- The arguments of the `model.fit` call. -/
structure FitCall where
  x : DataFrame
  y : NDArray
  validation_split : Rat
  epochs : PVal
  batch_size : PVal
  callback : EarlyStoppingCfg
deriving DecidableEq, Repr

/-- Everything observable about one successful `train_model` run. -/
structure TrainOutput where
  /-- Tracker and seed calls in program order. -/
  events : List Event
  /-- Keyword arguments of the training `mlflow.start_run` call. -/
  startArgs : StartRunArgs
  /-- File writes in program order. -/
  fileWrites : List FileWrite
  /-- Content of `metrics/training.json`. -/
  metrics : List (String × Rat)
  /-- The dictionary object the callers `params` refers to after the run
  (the script mutates it in place). -/
  finalParams : Params
  /-- The `input_shape` argument passed to `create_model`. -/
  createInputShape : Nat
  /-- The `num_classes` argument passed to `create_model`. -/
  createNumClasses : Nat
  /-- The `params` argument passed to `create_model`. -/
  createParams : Params
  /-- The compiled model. -/
  model : KerasModel
  /-- The `model.fit` call. -/
  fitCall : FitCall
  /-- The fitted target encoder. -/
  encoder : OneHotEncoder
deriving DecidableEq, Repr

/-- Function `train_model` (train_model.py lines 127-211).  External inputs:
the environment, the `mlflow.search_runs` result (run ids, most recent
first), the id a fresh MLflow run would get, the training dataframe, the
hyperparameter dictionary and the history `model.fit` returns.  `none` is
an uncaught exception (a missing `random_seed`/`epochs`/`batch_size` key,
a missing `target` column, a missing hyperparameter in `create_model`, or
an empty per-epoch metric list). -/
def train_model (env : Env) (search : List String) (freshRunId : String)
    (train_data : DataFrame) (prms : Params)
    (fitHistory : List (String × List Rat)) : Option TrainOutput :=
  let setup := setupExtraArgs env search freshRunId
  match Params.pop prms "random_seed" with
  | none => none
  | some (seed, params1) =>
    match prepare_data train_data with
    | none => none
    | some (_, X_train, y_train, encoder) =>
      match create_model X_train.shape1 y_train.ncols params1 with
      | none => none
      | some model =>
        match List.lookup "epochs" params1, List.lookup "batch_size" params1 with
        | some epochs, some batch_size =>
          match finalMetrics fitHistory with
          | none => none
          | some ms =>
            some { events := [.setExperiment "ml_classification", .autolog]
                     ++ setup.2
                     ++ [.startRun setup.1, .logParams prms, .setSeed seed,
                         .logArtifact "artifacts/[features]_mean_imputer.joblib",
                         .logArtifact "artifacts/[features]_scaler.joblib",
                         .logArtifact "artifacts/[target]_one_hot_encoder.joblib",
                         .endRun],
                   startArgs := setup.1,
                   fileWrites := save_training_artifacts model encoder
                     ++ [⟨"metrics/training.json", .json ms⟩],
                   metrics := ms,
                   finalParams := params1,
                   createInputShape := X_train.shape1,
                   createNumClasses := y_train.ncols,
                   createParams := params1,
                   model := model,
                   fitCall := ⟨X_train, y_train, 1/5, epochs, batch_size,
                               ⟨"val_loss", 10, true⟩⟩,
                   encoder := encoder }
        | _, _ => none

/-- Function `load_data` (train_model.py lines 20-29): read the fixed CSV path;
`fs` is the parse the filesystem yields for each readable CSV file, `none` is the
exception of a missing or unreadable file. -/
def load_data (fs : String → Option DataFrame) : Option DataFrame :=
  fs "data/processed/train_processed.csv"

/-- Function `load_params` (train_model.py lines 32-40): `yaml.safe_load` of
`params.yaml` (already `none` when the file is missing or malformed),
then the subscript `params["train"]` (a `KeyError` when absent). -/
def load_params (paramsYaml : Option (List (String × Params))) : Option Params :=
  match paramsYaml with
  | none => none
  | some y => List.lookup "train" y

/-- Function `main` (train_model.py lines 214-219; `main` itself is a reserved
entry-point name in Lean): straight-line composition of the three stages;
any exception of a stage propagates. -/
def mainProgram (fs : String → Option DataFrame)
    (paramsYaml : Option (List (String × Params))) (env : Env)
    (search : List String) (freshRunId : String)
    (fitHistory : List (String × List Rat)) : Option TrainOutput :=
  match load_data fs with
  | none => none
  | some train_data =>
    match load_params paramsYaml with
    | none => none
    | some prms => train_model env search freshRunId train_data prms fitHistory

/-! ## Concrete example inputs used by the witnesses -/

/-- A small training dataframe: two numeric feature columns and a binary
`target` column. -/
def exDF : DataFrame :=
  ⟨[("feat1", [.int 10, .int 11, .int 12]),
    ("feat2", [.int 3, .int 4, .int 5]),
    ("target", [.int 1, .int 0, .int 1])]⟩

/-- A hyperparameter dictionary with the keys `params.yaml` provides. -/
def exParams : Params :=
  [("hidden_layer_1_neurons", .int 64),
   ("hidden_layer_2_neurons", .int 32),
   ("dropout_rate", .float (1/5)),
   ("learning_rate", .float (1/1000)),
   ("batch_size", .int 32),
   ("epochs", .int 5),
   ("random_seed", .int 42)]

/-- A two-epoch training history as `model.fit` would return it. -/
def exHistory : List (String × List Rat) :=
  [("accuracy", [0, 1]), ("loss", [3, 2]),
   ("val_accuracy", [0, 1]), ("val_loss", [4, 3])]

/-- An environment with the DVC-experiment variables set. -/
def exEnvExp : Env := [("DVC_EXP_NAME", "exp1"), ("MLFLOW_EXPERIMENT_ID", "7")]

/-- The output of a run with no DVC environment variables set. -/
def exOut : TrainOutput :=
  (train_model [] [] "run0" exDF exParams exHistory).get rfl

/-- The output of a DVC-experiment run whose parent-run search came back
empty. -/
def exOutFresh : TrainOutput :=
  (train_model exEnvExp [] "fresh0" exDF exParams exHistory).get rfl

/-- The output of a DVC-experiment run whose parent-run search found the
runs `run_a` (most recent) and `run_b`. -/
def exOutReuse : TrainOutput :=
  (train_model exEnvExp ["run_a", "run_b"] "fresh0" exDF exParams exHistory).get rfl

/-- The result of `prepare_data` on the example dataframe. -/
def exPrep : DataFrame × DataFrame × NDArray × OneHotEncoder :=
  (prepare_data exDF).get rfl

/-- Recognise the `mlflow.start_run` events of a trace. -/
def isStartRun : Event → Bool
  | .startRun _ => true
  | _ => false

theorem lookup_filter_self {β : Type} (k : String) (l : List (String × β)) :
    List.lookup k (l.filter (fun p => p.1 != k)) = none := by
  induction l with
  | nil => rfl
  | cons p rest ih =>
    by_cases hp : p.1 = k
    · simp [List.filter_cons, hp, ih]
    · have hb : (k == p.1) = false := beq_eq_false_iff_ne.mpr (Ne.symm hp)
      simp [List.filter_cons, hp, List.lookup, ih, hb]

theorem lookup_filter_ne {β : Type} (k k' : String) (l : List (String × β))
    (h : k' ≠ k) :
    List.lookup k' (l.filter (fun p => p.1 != k)) = List.lookup k' l := by
  induction l with
  | nil => rfl
  | cons p rest ih =>
    by_cases hp : p.1 = k
    · have hb : (k' == k) = false := beq_eq_false_iff_ne.mpr h
      simp [List.filter_cons, hp, ih, List.lookup, hb]
    · by_cases hk : k' = p.1
      · simp [List.filter_cons, hp, List.lookup, hk]
      · have hb : (k' == p.1) = false := beq_eq_false_iff_ne.mpr hk
        simp [List.filter_cons, hp, List.lookup, hb, ih]

theorem mem_insertSorted (x a : PVal) (l : List PVal) :
    a ∈ insertSorted x l ↔ a = x ∨ a ∈ l := by
  induction l with
  | nil => simp [insertSorted]
  | cons y ys ih =>
    simp only [insertSorted]
    split
    · simp [List.mem_cons]
    · simp [List.mem_cons, ih]
      tauto

theorem nodup_insertSorted (x : PVal) (l : List PVal) (hx : x ∉ l)
    (hl : l.Nodup) : (insertSorted x l).Nodup := by
  induction l with
  | nil => simp [insertSorted]
  | cons y ys ih =>
    simp only [insertSorted]
    split
    · exact List.nodup_cons.mpr ⟨hx, hl⟩
    · rcases List.nodup_cons.mp hl with ⟨hy, hys⟩
      have hx' : x ∉ ys := fun hc => hx (List.mem_cons_of_mem _ hc)
      have hxy : x ≠ y := fun hc => hx (by simp [hc])
      refine List.nodup_cons.mpr ⟨?_, ih hx' hys⟩
      intro hc
      rcases (mem_insertSorted x y ys).mp hc with h1 | h2
      · exact hxy h1.symm
      · exact hy h2

theorem mem_sortVals (a : PVal) (l : List PVal) : a ∈ sortVals l ↔ a ∈ l := by
  induction l with
  | nil => simp [sortVals]
  | cons y ys ih => simp [sortVals, mem_insertSorted, ih]

theorem nodup_sortVals (l : List PVal) (hl : l.Nodup) : (sortVals l).Nodup := by
  induction l with
  | nil => simp [sortVals]
  | cons y ys ih =>
    rcases List.nodup_cons.mp hl with ⟨hy, hys⟩
    exact nodup_insertSorted y _ (fun hc => hy ((mem_sortVals y ys).mp hc)) (ih hys)

theorem oneHotCategories_nodup (ys : List PVal) : (oneHotCategories ys).Nodup :=
  nodup_sortVals _ (List.nodup_dedup ys)

theorem mem_oneHotCategories (c : PVal) (ys : List PVal) :
    c ∈ oneHotCategories ys ↔ c ∈ ys := by
  unfold oneHotCategories
  rw [mem_sortVals, List.mem_dedup]

theorem finalMetrics_keys (h : List (String × List Rat))
    (ms : List (String × Rat)) (hfm : finalMetrics h = some ms) :
    ms.map Prod.fst = h.map Prod.fst := by
  induction h generalizing ms with
  | nil =>
    simp [finalMetrics] at hfm
    subst hfm
    rfl
  | cons p rest ih =>
    obtain ⟨m, vs⟩ := p
    simp only [finalMetrics] at hfm
    rcases hv : vs.getLast? with _ | v <;> rcases hr : finalMetrics rest with _ | ms' <;>
      simp [hv, hr] at hfm
    subst hfm
    simp [ih ms' hr]

theorem finalMetrics_get (h : List (String × List Rat))
    (ms : List (String × Rat)) (hfm : finalMetrics h = some ms) :
    ms.length = h.length ∧
    ∀ i (hi : i < ms.length) (hh : i < h.length),
      (ms.get ⟨i, hi⟩).1 = (h.get ⟨i, hh⟩).1 ∧
      (h.get ⟨i, hh⟩).2.getLast? = some (ms.get ⟨i, hi⟩).2 := by
  induction h generalizing ms with
  | nil =>
    simp [finalMetrics] at hfm
    subst hfm
    exact ⟨rfl, fun i hi hh => absurd hi (by simp)⟩
  | cons p rest ih =>
    obtain ⟨m, vs⟩ := p
    simp only [finalMetrics] at hfm
    rcases hv : vs.getLast? with _ | v <;> rcases hr : finalMetrics rest with _ | ms' <;>
      simp [hv, hr] at hfm
    subst hfm
    obtain ⟨hlen, hget⟩ := ih ms' hr
    refine ⟨by simp [hlen], ?_⟩
    intro i hi hh
    cases i with
    | zero => exact ⟨rfl, by simpa using hv⟩
    | succ j => exact hget j (by simpa using hi) (by simpa using hh)

theorem prepare_data_inv (df d X : DataFrame) (y : NDArray)
    (enc : OneHotEncoder) (h : prepare_data df = some (d, X, y, enc)) :
    ∃ ys, df.getCol "target" = some ys ∧
      d = df ∧
      X.cols = df.cols.filter (fun p => p.1 != "target") ∧
      enc = oneHotFit ys ∧
      y = oneHotTransform (oneHotFit ys) ys := by
  unfold prepare_data at h
  rcases hd : df.drop "target" with _ | X' <;>
    rcases hy : df.getCol "target" with _ | ys <;>
      rw [hd, hy] at h <;> simp at h
  unfold DataFrame.drop at hd
  unfold DataFrame.getCol at hy
  rw [hy] at hd
  simp at hd
  obtain ⟨h1, h2, h3, h4⟩ := h
  exact ⟨ys, rfl, h1.symm, by rw [← h2, ← hd], h4.symm, h3.symm⟩

theorem train_model_inv (env : Env) (search : List String)
    (freshRunId : String) (train_data : DataFrame) (prms : Params)
    (fitHistory : List (String × List Rat)) (out : TrainOutput)
    (h : train_model env search freshRunId train_data prms fitHistory = some out) :
    ∃ seed params1 dfAfter X_train y_train encoder model epochs batch_size ms,
      Params.pop prms "random_seed" = some (seed, params1) ∧
      prepare_data train_data = some (dfAfter, X_train, y_train, encoder) ∧
      create_model X_train.shape1 y_train.ncols params1 = some model ∧
      List.lookup "epochs" params1 = some epochs ∧
      List.lookup "batch_size" params1 = some batch_size ∧
      finalMetrics fitHistory = some ms ∧
      out = { events := [.setExperiment "ml_classification", .autolog]
                ++ (setupExtraArgs env search freshRunId).2
                ++ [.startRun (setupExtraArgs env search freshRunId).1,
                    .logParams prms, .setSeed seed,
                    .logArtifact "artifacts/[features]_mean_imputer.joblib",
                    .logArtifact "artifacts/[features]_scaler.joblib",
                    .logArtifact "artifacts/[target]_one_hot_encoder.joblib",
                    .endRun],
              startArgs := (setupExtraArgs env search freshRunId).1,
              fileWrites := save_training_artifacts model encoder
                ++ [⟨"metrics/training.json", .json ms⟩],
              metrics := ms,
              finalParams := params1,
              createInputShape := X_train.shape1,
              createNumClasses := y_train.ncols,
              createParams := params1,
              model := model,
              fitCall := ⟨X_train, y_train, 1/5, epochs, batch_size,
                          ⟨"val_loss", 10, true⟩⟩,
              encoder := encoder } := by
  simp only [train_model] at h
  split at h
  · exact Option.noConfusion h
  next seed params1 hpop =>
    split at h
    · exact Option.noConfusion h
    next dfA X y enc hprep =>
      split at h
      · exact Option.noConfusion h
      next model hcm =>
        split at h
        next epochs batch_size he hb =>
          split at h
          · exact Option.noConfusion h
          next ms hfm =>
            exact ⟨seed, params1, dfA, X, y, enc, model, epochs, batch_size, ms,
              hpop, hprep, hcm, he, hb, hfm, (Option.some.inj h).symm⟩
        next hne => exact Option.noConfusion h

/-- C2: the function `create_model` returns a sequential network with exactly two
hidden dense layers of `hidden_layer_1_neurons` and
`hidden_layer_2_neurons` units (relu activation), a dropout layer of rate
`dropout_rate` after each hidden layer, a final dense softmax layer of
`num_classes` units, compiled with the Adam optimizer at the given
`learning_rate`, categorical_crossentropy loss and accuracy as the only
metric. -/
theorem create_model_architecture (i n : Nat) (ps : Params)
    (h1 dr h2 lr : PVal)
    (e1 : List.lookup "hidden_layer_1_neurons" ps = some h1)
    (e2 : List.lookup "dropout_rate" ps = some dr)
    (e3 : List.lookup "hidden_layer_2_neurons" ps = some h2)
    (e4 : List.lookup "learning_rate" ps = some lr) :
    create_model i n ps =
      some { layers := [.dense h1 "relu" (some i), .dropout dr,
                        .dense h2 "relu" none, .dropout dr,
                        .dense (.int n) "softmax" none],
             optimizer := ⟨"Adam", lr⟩,
             loss := "categorical_crossentropy",
             metrics := ["accuracy"] } := by
  simp [create_model, e1, e2, e3, e4]

theorem create_model_architecture_witness :
    create_model 2 2 exParams =
      some { layers := [.dense (.int 64) "relu" (some 2),
                        .dropout (.float (1/5)),
                        .dense (.int 32) "relu" none,
                        .dropout (.float (1/5)),
                        .dense (.int 2) "softmax" none],
             optimizer := ⟨"Adam", .float (1/1000)⟩,
             loss := "categorical_crossentropy",
             metrics := ["accuracy"] } :=
  create_model_architecture 2 2 exParams (.int 64) (.float (1/5)) (.int 32)
    (.float (1/1000)) rfl rfl rfl rfl

/-- C1 counterexample: the example run receives a hyperparameter mapping
containing `random_seed`, yet the mapping `create_model` is called with
does not contain that key: the seed is popped from the dictionary before
the builder is called, so the builder does not receive the loaded mapping
with every key present. -/
theorem create_model_params_counterexample :
    List.lookup "random_seed" exParams = some (.int 42) ∧
    (train_model [] [] "run0" exDF exParams exHistory).map
        (fun o => List.lookup "random_seed" o.createParams) = some none :=
  ⟨rfl, rfl⟩

/-- C1 (amended): for every successful `train_model` run, the builder
receives the loaded mapping with exactly the `random_seed` key removed
(the seed-setting step pops it first): the seed key is absent, and every
other key is present with its value unchanged. -/
theorem create_model_params_minus_seed (env : Env) (search : List String)
    (freshRunId : String) (train_data : DataFrame) (prms : Params)
    (fitHistory : List (String × List Rat)) (out : TrainOutput)
    (h : train_model env search freshRunId train_data prms fitHistory = some out) :
    out.createParams = prms.filter (fun p => p.1 != "random_seed") ∧
    List.lookup "random_seed" out.createParams = none ∧
    ∀ k, k ≠ "random_seed" →
      List.lookup k out.createParams = List.lookup k prms := by
  obtain ⟨seed, params1, dfA, X, y, enc, model, epochs, bs, ms,
    hpop, hprep, hcm, he, hb, hfm, hout⟩ :=
    train_model_inv env search freshRunId train_data prms fitHistory out h
  subst hout
  have hp1 : params1 = prms.filter (fun p => p.1 != "random_seed") := by
    unfold Params.pop at hpop
    rcases hl : List.lookup "random_seed" prms with _ | v <;> rw [hl] at hpop <;>
      simp at hpop
    exact hpop.2.symm
  refine ⟨by simpa using hp1, ?_, ?_⟩
  · simpa [hp1] using lookup_filter_self "random_seed" prms
  · intro k hk
    simpa [hp1] using lookup_filter_ne "random_seed" k prms hk

theorem create_model_params_minus_seed_witness :
    exOut.createParams = exParams.filter (fun p => p.1 != "random_seed") ∧
    List.lookup "random_seed" exOut.createParams = none :=
  ⟨(create_model_params_minus_seed [] [] "run0" exDF exParams exHistory exOut
      rfl).1,
   (create_model_params_minus_seed [] [] "run0" exDF exParams exHistory exOut
      rfl).2.1⟩

/-- C3: the function `train_model` starts a nested child run (with `nested=True`, the
run name taken from `DVC_EXP_NAME` and a parent run id obtained via the
search over `MLFLOW_EXPERIMENT_ID`) exactly when `DVC_EXP_NAME` is set;
when it is unset, a single non-nested run is started with no extra
arguments. -/
theorem nested_run_iff_dvc_exp (env : Env) (search : List String)
    (freshRunId : String) (train_data : DataFrame) (prms : Params)
    (fitHistory : List (String × List Rat)) (out : TrainOutput)
    (h : train_model env search freshRunId train_data prms fitHistory = some out) :
    (∀ name, List.lookup "DVC_EXP_NAME" env = some name →
      out.startArgs.nested = true ∧
      out.startArgs.run_name = some name ∧
      out.startArgs.parent_run_id =
        some (match search with | [] => freshRunId | r :: _ => r) ∧
      Event.searchRuns (List.lookup "MLFLOW_EXPERIMENT_ID" env)
          "tags.dvc_exp = \x27True\x27" ["start_time DESC"] ∈ out.events) ∧
    (List.lookup "DVC_EXP_NAME" env = none →
      out.startArgs = ⟨none, none, false⟩ ∧
      out.events.countP isStartRun = 1 ∧
      Event.startRun ⟨none, none, false⟩ ∈ out.events) := by
  obtain ⟨seed, params1, dfA, X, y, enc, model, epochs, bs, ms,
    hpop, hprep, hcm, he, hb, hfm, hout⟩ :=
    train_model_inv env search freshRunId train_data prms fitHistory out h
  subst hout
  constructor
  · intro name hname
    cases search with
    | nil => simp [setupExtraArgs, hname]
    | cons r rs => simp [setupExtraArgs, hname]
  · intro hnone
    simp [setupExtraArgs, hnone, isStartRun, List.countP_append, List.countP_cons]

theorem nested_run_iff_dvc_exp_witness :
    exOut.startArgs = ⟨none, none, false⟩ ∧
    exOut.events.countP isStartRun = 1 :=
  ⟨((nested_run_iff_dvc_exp [] [] "run0" exDF exParams exHistory exOut
      rfl).2 rfl).1,
   ((nested_run_iff_dvc_exp [] [] "run0" exDF exParams exHistory exOut
      rfl).2 rfl).2.1⟩

/-- C9: when `DVC_EXP_NAME` is set and the tracker search finds no run
tagged dvc_exp, `train_model` first creates a fresh parent run, tags it,
and closes it before starting the nested training run under it; when
matching runs exist, the head of the start_time-descending result (the
most recently started run) is reused as the parent and only the one
nested run is started. -/
theorem parent_run_created_or_reused (env : Env) (search : List String)
    (freshRunId : String) (train_data : DataFrame) (prms : Params)
    (fitHistory : List (String × List Rat)) (out : TrainOutput) (name : String)
    (h : train_model env search freshRunId train_data prms fitHistory = some out)
    (hdvc : List.lookup "DVC_EXP_NAME" env = some name) :
    (search = [] →
      out.startArgs = ⟨some freshRunId, some name, true⟩ ∧
      ∃ rest, out.events =
        [.setExperiment "ml_classification", .autolog,
         .searchRuns (List.lookup "MLFLOW_EXPERIMENT_ID" env)
           "tags.dvc_exp = \x27True\x27" ["start_time DESC"],
         .startRun ⟨none, none, false⟩, .setTag "dvc_exp" "True", .endRun,
         .startRun ⟨some freshRunId, some name, true⟩] ++ rest) ∧
    (∀ r rs, search = r :: rs →
      out.startArgs = ⟨some r, some name, true⟩ ∧
      out.events.countP isStartRun = 1 ∧
      ∃ rest, out.events =
        [.setExperiment "ml_classification", .autolog,
         .searchRuns (List.lookup "MLFLOW_EXPERIMENT_ID" env)
           "tags.dvc_exp = \x27True\x27" ["start_time DESC"],
         .startRun ⟨some r, some name, true⟩] ++ rest) := by
  obtain ⟨seed, params1, dfA, X, y, enc, model, epochs, bs, ms,
    hpop, hprep, hcm, he, hb, hfm, hout⟩ :=
    train_model_inv env search freshRunId train_data prms fitHistory out h
  subst hout
  constructor
  · intro hs
    subst hs
    refine ⟨by simp [setupExtraArgs, hdvc], ?_⟩
    exact ⟨[.logParams prms, .setSeed seed,
            .logArtifact "artifacts/[features]_mean_imputer.joblib",
            .logArtifact "artifacts/[features]_scaler.joblib",
            .logArtifact "artifacts/[target]_one_hot_encoder.joblib",
            .endRun], by simp [setupExtraArgs, hdvc]⟩
  · intro r rs hs
    subst hs
    refine ⟨by simp [setupExtraArgs, hdvc], ?_, ?_⟩
    · simp [setupExtraArgs, hdvc, isStartRun, List.countP_append,
        List.countP_cons]
    · exact ⟨[.logParams prms, .setSeed seed,
              .logArtifact "artifacts/[features]_mean_imputer.joblib",
              .logArtifact "artifacts/[features]_scaler.joblib",
              .logArtifact "artifacts/[target]_one_hot_encoder.joblib",
              .endRun], by simp [setupExtraArgs, hdvc]⟩

theorem parent_run_created_or_reused_witness :
    exOutFresh.startArgs = ⟨some "fresh0", some "exp1", true⟩ :=
  ((parent_run_created_or_reused exEnvExp [] "fresh0" exDF exParams exHistory
      exOutFresh "exp1" rfl rfl).1 rfl).1

/-- C4: the metrics written to metrics/training.json are exactly the
final-epoch values: one entry per metric of the training history, each
holding the last element of the per-epoch sequence of that metric. -/
theorem metrics_are_final_epoch_values (env : Env) (search : List String)
    (freshRunId : String) (train_data : DataFrame) (prms : Params)
    (fitHistory : List (String × List Rat)) (out : TrainOutput)
    (h : train_model env search freshRunId train_data prms fitHistory = some out) :
    finalMetrics fitHistory = some out.metrics ∧
    FileWrite.mk "metrics/training.json" (.json out.metrics) ∈ out.fileWrites ∧
    out.metrics.map Prod.fst = fitHistory.map Prod.fst ∧
    out.metrics.length = fitHistory.length ∧
    ∀ i (hi : i < out.metrics.length) (hh : i < fitHistory.length),
      (out.metrics.get ⟨i, hi⟩).1 = (fitHistory.get ⟨i, hh⟩).1 ∧
      (fitHistory.get ⟨i, hh⟩).2.getLast? = some (out.metrics.get ⟨i, hi⟩).2 := by
  obtain ⟨seed, params1, dfA, X, y, enc, model, epochs, bs, ms,
    hpop, hprep, hcm, he, hb, hfm, hout⟩ :=
    train_model_inv env search freshRunId train_data prms fitHistory out h
  subst hout
  obtain ⟨hlen, hget⟩ := finalMetrics_get fitHistory ms hfm
  exact ⟨hfm, by simp [save_training_artifacts],
    finalMetrics_keys fitHistory ms hfm, hlen, hget⟩

theorem metrics_are_final_epoch_values_witness :
    finalMetrics exHistory = some exOut.metrics ∧
    exOut.metrics.map Prod.fst = exHistory.map Prod.fst :=
  ⟨(metrics_are_final_epoch_values [] [] "run0" exDF exParams exHistory exOut
      rfl).1,
   (metrics_are_final_epoch_values [] [] "run0" exDF exParams exHistory exOut
      rfl).2.2.1⟩

/-- C5: the files a successful run writes are exactly models/model.keras
(the trained model), artifacts/[target]_one_hot_encoder.joblib (the
fitted encoder) and metrics/training.json, in this order, and no other
path. -/
theorem writes_exactly_three_files (env : Env) (search : List String)
    (freshRunId : String) (train_data : DataFrame) (prms : Params)
    (fitHistory : List (String × List Rat)) (out : TrainOutput)
    (h : train_model env search freshRunId train_data prms fitHistory = some out) :
    out.fileWrites.map FileWrite.path =
      ["models/model.keras", "artifacts/[target]_one_hot_encoder.joblib",
       "metrics/training.json"] := by
  obtain ⟨seed, params1, dfA, X, y, enc, model, epochs, bs, ms,
    hpop, hprep, hcm, he, hb, hfm, hout⟩ :=
    train_model_inv env search freshRunId train_data prms fitHistory out h
  subst hout
  simp [save_training_artifacts]

theorem writes_exactly_three_files_witness :
    exOut.fileWrites.map FileWrite.path =
      ["models/model.keras", "artifacts/[target]_one_hot_encoder.joblib",
       "metrics/training.json"] :=
  writes_exactly_three_files [] [] "run0" exDF exParams exHistory exOut rfl

/-- C6: the function `prepare_data` fits the one-hot encoder once, on the target column
of the training data only (its result is a function of that column alone),
and returns the feature matrix (all columns except target), the encoded
target matrix with one column per distinct class, and that fitted
encoder. -/
theorem encoder_fit_on_train_target_only (df d X : DataFrame) (y : NDArray)
    (enc : OneHotEncoder) (ys : List PVal)
    (hy : df.getCol "target" = some ys)
    (h : prepare_data df = some (d, X, y, enc)) :
    enc = oneHotFit ys ∧
    y = oneHotTransform enc ys ∧
    X.cols = df.cols.filter (fun p => p.1 != "target") ∧
    y.ncols = enc.categories.length ∧
    enc.categories.Nodup ∧
    (∀ c, c ∈ enc.categories ↔ c ∈ ys) ∧
    ∀ df2 d2 X2 y2 enc2, DataFrame.getCol df2 "target" = some ys →
      prepare_data df2 = some (d2, X2, y2, enc2) → enc2 = enc := by
  obtain ⟨ys1, hy1, hd, hX, henc, hyy⟩ := prepare_data_inv df d X y enc h
  have hys : ys1 = ys := Option.some.inj (hy1.symm.trans hy)
  rw [hys] at henc hyy
  subst henc
  refine ⟨rfl, hyy, hX, by subst hyy; rfl, oneHotCategories_nodup ys,
    fun c => mem_oneHotCategories c ys, ?_⟩
  intro df2 d2 X2 y2 enc2 hy2 h2
  obtain ⟨ys2, hy21, _, _, henc2, _⟩ := prepare_data_inv df2 d2 X2 y2 enc2 h2
  have : ys2 = ys := Option.some.inj (hy21.symm.trans hy2)
  subst this
  exact henc2

theorem encoder_fit_on_train_target_only_witness :
    exPrep.2.2.2 = oneHotFit [.int 1, .int 0, .int 1] ∧
    exPrep.2.2.1.ncols = exPrep.2.2.2.categories.length :=
  ⟨(encoder_fit_on_train_target_only exDF exPrep.1 exPrep.2.1 exPrep.2.2.1
      exPrep.2.2.2 [.int 1, .int 0, .int 1] rfl rfl).1,
   (encoder_fit_on_train_target_only exDF exPrep.1 exPrep.2.1 exPrep.2.2.1
      exPrep.2.2.2 [.int 1, .int 0, .int 1] rfl rfl).2.2.2.1⟩

/-- C7: no error handling is implemented: a failing stage makes the whole
program fail, and when the early stages succeed `mainProgram` is exactly
the training stage, so any of its failures propagates too; there is no
recovery or fallback branch. -/
theorem errors_propagate_uncaught (fs : String → Option DataFrame)
    (paramsYaml : Option (List (String × Params))) (env : Env)
    (search : List String) (freshRunId : String)
    (fitHistory : List (String × List Rat)) :
    (load_data fs = none →
      mainProgram fs paramsYaml env search freshRunId fitHistory = none) ∧
    (load_params paramsYaml = none →
      mainProgram fs paramsYaml env search freshRunId fitHistory = none) ∧
    ∀ train_data prms, load_data fs = some train_data →
      load_params paramsYaml = some prms →
      mainProgram fs paramsYaml env search freshRunId fitHistory =
        train_model env search freshRunId train_data prms fitHistory := by
  refine ⟨fun h1 => ?_, fun h2 => ?_, fun td ps h1 h2 => ?_⟩
  · simp [mainProgram, h1]
  · unfold mainProgram
    cases h1 : load_data fs with
    | none => rfl
    | some td => rw [h2]
  · simp [mainProgram, h1, h2]

theorem errors_propagate_uncaught_witness :
    mainProgram (fun _ => none) (some [("train", exParams)]) [] [] "run0"
      exHistory = none :=
  (errors_propagate_uncaught (fun _ => none) (some [("train", exParams)]) []
    [] "run0" exHistory).1 rfl

/-- C8: the `params` dictionary is mutated in place: after the run it no
longer contains `random_seed` while every other key keeps its value, and
the parameters were logged to the tracker (immediately) before the
removal, so the logged mapping still includes the seed. -/
theorem params_dict_mutated_in_place (env : Env) (search : List String)
    (freshRunId : String) (train_data : DataFrame) (prms : Params)
    (fitHistory : List (String × List Rat)) (out : TrainOutput) (sv : PVal)
    (h : train_model env search freshRunId train_data prms fitHistory = some out)
    (hseed : List.lookup "random_seed" prms = some sv) :
    List.lookup "random_seed" out.finalParams = none ∧
    (∀ k, k ≠ "random_seed" →
      List.lookup k out.finalParams = List.lookup k prms) ∧
    ∃ l1 l2, out.events = l1 ++ Event.logParams prms :: Event.setSeed sv :: l2 := by
  obtain ⟨seed, params1, dfA, X, y, enc, model, epochs, bs, ms,
    hpop, hprep, hcm, he, hb, hfm, hout⟩ :=
    train_model_inv env search freshRunId train_data prms fitHistory out h
  subst hout
  unfold Params.pop at hpop
  rw [hseed] at hpop
  simp at hpop
  obtain ⟨hs, hp1⟩ := hpop
  refine ⟨?_, ?_, ?_⟩
  · simpa [← hp1] using lookup_filter_self "random_seed" prms
  · intro k hk
    simpa [← hp1] using lookup_filter_ne "random_seed" k prms hk
  · refine ⟨[.setExperiment "ml_classification", .autolog]
      ++ (setupExtraArgs env search freshRunId).2
      ++ [.startRun (setupExtraArgs env search freshRunId).1],
      [.logArtifact "artifacts/[features]_mean_imputer.joblib",
       .logArtifact "artifacts/[features]_scaler.joblib",
       .logArtifact "artifacts/[target]_one_hot_encoder.joblib",
       .endRun], ?_⟩
    simp [hs]

theorem params_dict_mutated_in_place_witness :
    List.lookup "random_seed" exOut.finalParams = none ∧
    List.lookup "epochs" exOut.finalParams = List.lookup "epochs" exParams :=
  ⟨(params_dict_mutated_in_place [] [] "run0" exDF exParams exHistory exOut
      (.int 42) rfl rfl).1,
   (params_dict_mutated_in_place [] [] "run0" exDF exParams exHistory exOut
      (.int 42) rfl rfl).2.1 "epochs" (by decide)⟩

/-- C10: the function `prepare_data` leaves its argument unchanged: the object the
variable of the caller refers to after the call is the original frame with all
its columns and rows, and the feature frame is a new frame (the drop is
not in place): it lacks the target column the original still has. -/
theorem prepare_data_leaves_argument_unchanged (df d X : DataFrame)
    (y : NDArray) (enc : OneHotEncoder)
    (h : prepare_data df = some (d, X, y, enc)) :
    d = df ∧
    X.cols = df.cols.filter (fun p => p.1 != "target") ∧
    X.getCol "target" = none ∧
    ∃ ys, df.getCol "target" = some ys := by
  obtain ⟨ys, hy, hd, hX, _, _⟩ := prepare_data_inv df d X y enc h
  refine ⟨hd, hX, ?_, ys, hy⟩
  unfold DataFrame.getCol
  rw [hX]
  exact lookup_filter_self _ _

theorem prepare_data_leaves_argument_unchanged_witness :
    exPrep.1 = exDF ∧ exPrep.2.1.getCol "target" = none :=
  ⟨(prepare_data_leaves_argument_unchanged exDF exPrep.1 exPrep.2.1
      exPrep.2.2.1 exPrep.2.2.2 rfl).1,
   (prepare_data_leaves_argument_unchanged exDF exPrep.1 exPrep.2.1
      exPrep.2.2.1 exPrep.2.2.2 rfl).2.2.1⟩
